import Mathlib

/-!
Verification development for the `microservices_rs` authentication service.

The development shallowly embeds the two source files of the repository:

* `src/auth-service/users.rs` — the credential store (`UsersImpl` with its
  two `HashMap<String, User>` indexes and the `Users` trait operations
  `create_user`, `get_user_uuid`, `delete_user`);
* `src/auth-service/auth.rs` — the orchestrator (`AuthService` with
  `sign_in`, `sign_up`, `sign_out`).

Rust `HashMap<String, V>` values are embedded as association lists
`List (String × V)`; `HashMap::get` is the first matching entry,
`HashMap::remove` drops the key entirely (on the unique-key maps the code
builds, these coincide with the Rust semantics).

The pbkdf2 password-hashing library is external to the repository; it is
embedded as an abstract `HashLib` record (hashing, hash-string parsing,
verification), and the random salt drawn from `OsRng` inside
`create_user` is passed as an explicit argument.  A concrete computable
instance `modelHashLib` is used to evaluate the definitions on concrete
inputs.

The session store (`sessions.rs`) is referenced by `auth.rs` but its
source is not part of the repository snapshot; it is modelled from the
specification (see `SessionsImpl`).
-/

/-- Abstract interface of the pbkdf2 password-hashing library used by
`users.rs`: `hashPassword password salt` models
`Pbkdf2.hash_password(password.as_bytes(), &salt)` (which may fail),
`parseOk stored` models `PasswordHash::new(&stored).is_ok()`, and
`verify password stored` models
`Pbkdf2.verify_password(password.as_bytes(), &parsed).is_ok()` on the
parsed hash. -/
structure HashLib where
  hashPassword : String → String → Except String String
  parseOk : String → Bool
  verify : String → String → Bool

/-- Concrete computable instance of `HashLib` for evaluating the store on
concrete inputs: the stored hash is `salt ++ "#" ++ password`, parsing
always succeeds, and verification checks that the stored string ends with
`"#" ++ password`. -/
def modelHashLib : HashLib where
  hashPassword := fun pw salt => Except.ok (salt ++ "#" ++ pw)
  parseOk := fun _ => true
  verify := fun pw stored =>
    stored.data.reverse.take (pw.data.length + 1) == (pw.data.reverse ++ [Char.ofNat 35])

/-- `struct User` of `users.rs`: uuid, username and the stored (hashed)
password. -/
structure User where
  user_uuid : String
  username : String
  password : String
deriving DecidableEq, Repr

/-- `HashMap::get` on an association list: the first entry with the key. -/
def mapGet {α : Type} (m : List (String × α)) (k : String) : Option α :=
  match m with
  | [] => none
  | (k', v) :: rest => if k' = k then some v else mapGet rest k

/-- `HashMap::remove` on an association list: every entry with the key is
dropped (a `HashMap` holds at most one entry per key, so after `remove`
the key is absent). -/
def mapRemove {α : Type} (m : List (String × α)) (k : String) : List (String × α) :=
  m.filter (fun kv => kv.1 != k)

/-- `struct UsersImpl` of `users.rs`: the two indexes of the credential
store. -/
structure UsersImpl where
  uuid_to_user : List (String × User)
  username_to_user : List (String × User)
deriving DecidableEq, Repr

/-- `UsersImpl::default()`: both indexes empty. -/
def emptyUsers : UsersImpl := { uuid_to_user := [], username_to_user := [] }

/-- `Uuid::NAMESPACE_X500.to_string()`, the value `users.rs` assigns as
`user_uuid` to every created user. -/
def NAMESPACE_X500 : String := "6ba7b814-9dad-11d1-80b4-00c04fd430c8"

/-- `UsersImpl::create_user` (users.rs:30-68).  The salt drawn from
`OsRng` is an explicit argument; the mutation of `self` is returned as
the new store state.  Note that the code builds two fresh single-entry
maps and assigns them over both indexes, and that the uuid is the
constant `NAMESPACE_X500`. -/
def create_user (hl : HashLib) (st : UsersImpl) (new_username password salt : String) :
    Except String UsersImpl :=
  if st.username_to_user.any (fun kv => kv.2.username == new_username) then
    Except.error "Error, username not unique"
  else
    match hl.hashPassword password salt with
    | Except.error e => Except.error ("Failed to hash password.\n" ++ e)
    | Except.ok hashed_password =>
      let user : User :=
        { user_uuid := NAMESPACE_X500, username := new_username, password := hashed_password }
      Except.ok
        { username_to_user := [(new_username, user)]
          uuid_to_user := [(user.user_uuid, user)] }

/-- `UsersImpl::get_user_uuid` (users.rs:70-90): look the username up in
`username_to_user`, parse the stored hash, verify the supplied password,
and return the stored uuid on success. -/
def get_user_uuid (hl : HashLib) (st : UsersImpl) (username password : String) : Option String :=
  match mapGet st.username_to_user username with
  | none => none
  | some user =>
    if hl.parseOk user.password then
      if hl.verify password user.password then some user.user_uuid else none
    else none

/-- `UsersImpl::delete_user` (users.rs:92-107): `user_name` starts as
`String::new()` and is set to the stored username only when the uuid is
found (in which case the uuid entry is removed); the code then removes
`user_name` from `username_to_user` unconditionally. -/
def delete_user (st : UsersImpl) (user_uuid : String) : UsersImpl :=
  let user_name : String :=
    match mapGet st.uuid_to_user user_uuid with
    | some u => u.username
    | none => ""
  let uuid_to_user :=
    match mapGet st.uuid_to_user user_uuid with
    | some _ => mapRemove st.uuid_to_user user_uuid
    | none => st.uuid_to_user
  { uuid_to_user := uuid_to_user
    username_to_user := mapRemove st.username_to_user user_name }

/-- Modelled from the spec: `sessions.rs` is referenced by `auth.rs`
(`SessionsImpl`, `create_session`, `delete_session`) but is not part of
the repository snapshot.  Per §4.2 of the specification, the session
store records sessions as a token-to-identity map; `issue` generates a
fresh unpredictable token and records the session, `revoke` removes the
session if present and is a no-op on an absent token.  Freshness is
modelled with a counter. -/
structure SessionsImpl where
  token_to_uuid : List (String × String)
  counter : Nat
deriving DecidableEq, Repr

/-- `SessionsImpl::default()`: no sessions. -/
def emptySessions : SessionsImpl := { token_to_uuid := [], counter := 0 }

/-- Modelled from the spec: `SessionsImpl::create_session` — generate a
fresh token, record the session for the given identity id, and return
the token. -/
def create_session (st : SessionsImpl) (user_uuid : String) : String × SessionsImpl :=
  let token := "token-" ++ toString st.counter
  (token,
   { token_to_uuid := (token, user_uuid) :: mapRemove st.token_to_uuid token
     counter := st.counter + 1 })

/-- Modelled from the spec: `SessionsImpl::delete_session` — remove the
session for the token if present; an absent token is a no-op. -/
def delete_session (st : SessionsImpl) (token : String) : SessionsImpl :=
  { st with token_to_uuid := mapRemove st.token_to_uuid token }

/-- The two-valued `StatusCode` of the remote interface (the generated
protobuf enum carried as `i32` in the responses). -/
inductive StatusCode where
  | Success
  | Failure
deriving DecidableEq, Repr

/-- `SignInResponse` of the remote interface: status code, session token
and user uuid (empty strings mean "no value"). -/
structure SignInResponse where
  status_code : StatusCode
  session_token : String
  user_uuid : String
deriving DecidableEq, Repr

/-- `AuthService` (auth.rs:22-25): the orchestrator owns the credential
store and the session store (each behind a mutex in the source; the
lock-poisoning panic paths are concurrency behaviour outside this
sequential embedding). -/
structure AuthService where
  users_service : UsersImpl
  sessions_service : SessionsImpl
deriving DecidableEq, Repr

/-- `AuthService::sign_in` (auth.rs:41-91): authenticate via
`get_user_uuid`; on `None` reply `Failure` with empty token and uuid;
otherwise create a session and reply `Success` with the issued token and
the uuid. -/
def sign_in (hl : HashLib) (st : AuthService) (username password : String) :
    SignInResponse × AuthService :=
  match get_user_uuid hl st.users_service username password with
  | none =>
    ({ status_code := StatusCode.Failure, session_token := "", user_uuid := "" }, st)
  | some user_uuid =>
    let issued := create_session st.sessions_service user_uuid
    ({ status_code := StatusCode.Success, session_token := issued.1, user_uuid := user_uuid },
     { st with sessions_service := issued.2 })

/-- `AuthService::sign_up` (auth.rs:93-123): call `create_user` and map
`Ok` to `Success` and `Err` to `Failure`; both outcomes are returned as
ordinary responses (`Ok(Response::new(..))`), never as a transport
error. -/
def sign_up (hl : HashLib) (st : AuthService) (username password salt : String) :
    StatusCode × AuthService :=
  match create_user hl st.users_service username password salt with
  | Except.ok users => (StatusCode.Success, { st with users_service := users })
  | Except.error _ => (StatusCode.Failure, st)

/-- `AuthService::sign_out` (auth.rs:125-146): delete the session for the
supplied token and always reply `Success`. -/
def sign_out (st : AuthService) (session_token : String) : StatusCode × AuthService :=
  (StatusCode.Success,
   { st with sessions_service := delete_session st.sessions_service session_token })

/-- An operation on the credential store, for reachability statements:
`create` carries the explicit salt drawn from `OsRng`. -/
inductive UserOp where
  | create (username password salt : String)
  | delete (user_uuid : String)

/-- Apply one operation to the credential store (`get_user_uuid` does not
change the state and is omitted; a failing `create_user` leaves the
store unchanged, as the Rust method returns early). -/
def applyOp (hl : HashLib) (st : UsersImpl) : UserOp → UsersImpl
  | UserOp.create u p s =>
    match create_user hl st u p s with
    | Except.ok st' => st'
    | Except.error _ => st
  | UserOp.delete id => delete_user st id

/-- Run a sequence of credential-store operations. -/
def runOps (hl : HashLib) (st : UsersImpl) : List UserOp → UsersImpl
  | [] => st
  | op :: ops => runOps hl (applyOp hl st op) ops

/-! ### Concrete fixtures for evaluating the definitions -/

/-- The identity stored after `create_user "alice" "pa"` with salt `"s1"`
under `modelHashLib`. -/
def uAlice : User :=
  { user_uuid := NAMESPACE_X500, username := "alice", password := "s1#pa" }

/-- The store after registering alice into the empty store. -/
def stAlice : UsersImpl :=
  { uuid_to_user := [(NAMESPACE_X500, uAlice)], username_to_user := [("alice", uAlice)] }

/-- The identity stored after `create_user "bob" "pb"` with salt `"s2"`
under `modelHashLib`. -/
def uBob : User :=
  { user_uuid := NAMESPACE_X500, username := "bob", password := "s2#pb" }

/-- The store after registering bob. -/
def stBob : UsersImpl :=
  { uuid_to_user := [(NAMESPACE_X500, uBob)], username_to_user := [("bob", uBob)] }

/-- The identity stored after `create_user "" "p"` with salt `"s"` under
`modelHashLib` (empty username). -/
def uEmptyName : User :=
  { user_uuid := NAMESPACE_X500, username := "", password := "s#p" }

/-- The store after registering the empty username into the empty store. -/
def stEmptyName : UsersImpl :=
  { uuid_to_user := [(NAMESPACE_X500, uEmptyName)], username_to_user := [("", uEmptyName)] }

/-! ### Claim theorems -/

/-- C1: the claim says a successful `register(u2, p2)` keeps every
previously registered identity, so `authenticate(u1, p1)` still succeeds
and `sign_in(u1, p1)` returns a token.  The code instead assigns fresh
single-entry maps over both indexes, discarding alice when bob registers:
after the second `create_user`, `get_user_uuid "alice" "pa"` is `none`
and `sign_in "alice" "pa"` fails with empty token and uuid. -/
theorem C1_second_register_discards_first :
    create_user modelHashLib emptyUsers "alice" "pa" "s1" = Except.ok stAlice
    ∧ create_user modelHashLib stAlice "bob" "pb" "s2" = Except.ok stBob
    ∧ get_user_uuid modelHashLib stAlice "alice" "pa" = some NAMESPACE_X500
    ∧ get_user_uuid modelHashLib stBob "alice" "pa" = none
    ∧ (sign_in modelHashLib
        { users_service := stBob, sessions_service := emptySessions } "alice" "pa").1
        = { status_code := StatusCode.Failure, session_token := "", user_uuid := "" } :=
  ⟨rfl, rfl, rfl, rfl, rfl⟩

/-- C2: the claim says every successful registration allocates a fresh
unique id.  The code assigns the constant `Uuid::NAMESPACE_X500` to every
created identity: registering alice and then bob gives both the same
uuid. -/
theorem C2_uuid_is_constant :
    create_user modelHashLib emptyUsers "alice" "pa" "s1" = Except.ok stAlice
    ∧ create_user modelHashLib stAlice "bob" "pb" "s2" = Except.ok stBob
    ∧ uAlice.user_uuid = NAMESPACE_X500
    ∧ uBob.user_uuid = NAMESPACE_X500
    ∧ uBob.user_uuid = uAlice.user_uuid :=
  ⟨rfl, rfl, rfl, rfl, rfl⟩

/-- C3: the claim says the uuid index and the username index always hold
the same set of identities in every reachable store state.  Reachable
counterexample: register the empty username, then call `delete_user` with
an absent uuid — `delete_user` sets `user_name` to the empty string when
the uuid is not found and still removes it from `username_to_user`, so
the identity stays in the uuid index but vanishes from the username
index. -/
theorem C3_indexes_diverge :
    runOps modelHashLib emptyUsers [UserOp.create "" "p" "s", UserOp.delete "z"]
      = { uuid_to_user := [(NAMESPACE_X500, uEmptyName)], username_to_user := [] }
    ∧ mapGet (runOps modelHashLib emptyUsers
        [UserOp.create "" "p" "s", UserOp.delete "z"]).uuid_to_user NAMESPACE_X500
      = some uEmptyName
    ∧ mapGet (runOps modelHashLib emptyUsers
        [UserOp.create "" "p" "s", UserOp.delete "z"]).username_to_user uEmptyName.username
      = none :=
  ⟨rfl, rfl, rfl⟩

/-- C4: the claim says `delete_user` with an id absent from the uuid
index leaves the entire store unchanged.  On a store holding an identity
with the empty username, deleting an absent uuid removes that identity's
entry from the username index (the code removes `user_name`, still
`String::new()`, unconditionally), so the store changes. -/
theorem C4_delete_absent_id_not_noop :
    mapGet stEmptyName.uuid_to_user "z" = none
    ∧ delete_user stEmptyName "z"
        = { uuid_to_user := [(NAMESPACE_X500, uEmptyName)], username_to_user := [] }
    ∧ delete_user stEmptyName "z" ≠ stEmptyName :=
  ⟨rfl, rfl, by decide⟩

/-- C5: `get_user_uuid` returns `some r` exactly when the username is
present (exact match in the username index), the stored hash parses, and
the supplied password verifies against it, with `r` the stored identity's
uuid; in every other case (unknown username, malformed stored hash, wrong
password) it returns the same `none`. -/
theorem C5_get_user_uuid_iff (hl : HashLib) (st : UsersImpl) (username password r : String) :
    get_user_uuid hl st username password = some r ↔
      ∃ user, mapGet st.username_to_user username = some user
        ∧ hl.parseOk user.password = true
        ∧ hl.verify password user.password = true
        ∧ r = user.user_uuid := by
  unfold get_user_uuid
  cases h : mapGet st.username_to_user username with
  | none => simp
  | some user =>
    by_cases hp : hl.parseOk user.password
    · by_cases hv : hl.verify password user.password
      · simp only [hp, hv, if_true, Option.some.injEq, Option.some.injEq]
        constructor
        · intro hr
          exact ⟨user, rfl, hp, hv, hr.symm⟩
        · intro hr
          obtain ⟨user', huser', _, _, hr⟩ := hr
          cases huser'
          exact hr.symm
      · simp [hp, hv]
    · simp [hp]

/-- C5 witness: on the store holding alice, authenticating with the right
password yields alice's stored uuid. -/
theorem C5_get_user_uuid_iff_witness :
    get_user_uuid modelHashLib stAlice "alice" "pa" = some NAMESPACE_X500 :=
  (C5_get_user_uuid_iff modelHashLib stAlice "alice" "pa" NAMESPACE_X500).mpr
    ⟨uAlice, rfl, rfl, rfl, rfl⟩

/-- C6: `sign_in` either replies `Success` carrying the uuid returned by
authentication together with the token issued for it, or replies
`Failure` with `session_token` and `user_uuid` both the empty string;
the two shapes are exclusive by construction. -/
theorem C6_sign_in_exclusive (hl : HashLib) (st : AuthService) (username password : String) :
    ((sign_in hl st username password).1.status_code = StatusCode.Success
      ∧ get_user_uuid hl st.users_service username password
          = some (sign_in hl st username password).1.user_uuid
      ∧ (sign_in hl st username password).1.session_token
          = (create_session st.sessions_service
              (sign_in hl st username password).1.user_uuid).1)
    ∨ ((sign_in hl st username password).1.status_code = StatusCode.Failure
      ∧ (sign_in hl st username password).1.session_token = ""
      ∧ (sign_in hl st username password).1.user_uuid = "") := by
  cases h : get_user_uuid hl st.users_service username password with
  | none => right; simp [sign_in, h]
  | some uuid => left; simp [sign_in, h]

/-- C7: `sign_up` replies `Failure` exactly when `create_user` fails,
which happens exactly when some stored identity already carries the
requested username or the hashing library rejects the password; both
outcomes are ordinary responses (the embedding of `sign_up` is total),
so domain errors never escape as transport-level errors. -/
theorem C7_sign_up_failure_iff (hl : HashLib) (st : AuthService) (username password salt : String) :
    (sign_up hl st username password salt).1 = StatusCode.Failure ↔
      (st.users_service.username_to_user.any (fun kv => kv.2.username == username) = true
       ∨ ∃ e, hl.hashPassword password salt = Except.error e) := by
  unfold sign_up create_user
  by_cases hd : st.users_service.username_to_user.any (fun kv => kv.2.username == username)
  · simp [hd]
  · cases hh : hl.hashPassword password salt with
    | error e => simp [hd, hh]
    | ok hpw => simp [hd, hh]

/-- C7 witness: signing up a username that is already stored replies
`Failure`. -/
theorem C7_sign_up_failure_iff_witness :
    (sign_up modelHashLib
      { users_service := stAlice, sessions_service := emptySessions } "alice" "q" "s3").1
      = StatusCode.Failure :=
  (C7_sign_up_failure_iff modelHashLib
    { users_service := stAlice, sessions_service := emptySessions } "alice" "q" "s3").mpr
    (Or.inl rfl)

/-- Looking up a key after `mapRemove` of that key finds nothing. -/
theorem mapGet_mapRemove_self {α : Type} (m : List (String × α)) (k : String) :
    mapGet (mapRemove m k) k = none := by
  induction m with
  | nil => rfl
  | cons kv rest ih =>
    by_cases h : kv.1 = k
    · simpa [mapRemove, List.filter_cons, h] using ih
    · simpa [mapRemove, List.filter_cons, h, mapGet] using ih

/-- Removing the same key twice is the same as removing it once. -/
theorem mapRemove_mapRemove_self {α : Type} (m : List (String × α)) (k : String) :
    mapRemove (mapRemove m k) k = mapRemove m k := by
  induction m with
  | nil => rfl
  | cons kv rest ih =>
    by_cases h : kv.1 = k
    · simp [mapRemove, List.filter_cons, h, ih]
    · simp [mapRemove, List.filter_cons, h, ih]

/-- C8: `sign_out` replies `Success` for every token, issued or not;
after the call the session store holds no session for that token; and a
second `sign_out` with the same token also replies `Success` and leaves
the whole service state unchanged. -/
theorem C8_sign_out_idempotent (st : AuthService) (t : String) :
    (sign_out st t).1 = StatusCode.Success
    ∧ mapGet (sign_out st t).2.sessions_service.token_to_uuid t = none
    ∧ (sign_out (sign_out st t).2 t).1 = StatusCode.Success
    ∧ (sign_out (sign_out st t).2 t).2 = (sign_out st t).2 := by
  refine ⟨rfl, ?_, rfl, ?_⟩
  · exact mapGet_mapRemove_self st.sessions_service.token_to_uuid t
  · simp [sign_out, delete_session, mapRemove_mapRemove_self]

/-- Both indexes of the credential store hold at most one entry. -/
def smallStore (st : UsersImpl) : Prop :=
  st.uuid_to_user.length ≤ 1 ∧ st.username_to_user.length ≤ 1

/-- `delete_user` never grows either index. -/
theorem delete_user_shrinks (st : UsersImpl) (id : String) :
    (delete_user st id).uuid_to_user.length ≤ st.uuid_to_user.length
    ∧ (delete_user st id).username_to_user.length ≤ st.username_to_user.length := by
  cases hg : mapGet st.uuid_to_user id with
  | none =>
    constructor
    · simp [delete_user, hg]
    · simp only [delete_user, hg]
      exact List.length_filter_le _ _
  | some u =>
    constructor
    · simp only [delete_user, hg]
      exact List.length_filter_le _ _
    · simp only [delete_user, hg]
      exact List.length_filter_le _ _

/-- Every credential-store operation preserves `smallStore`: a successful
`create_user` installs two fresh single-entry maps, a failing one leaves
the store unchanged, and `delete_user` only removes entries. -/
theorem smallStore_applyOp (hl : HashLib) (st : UsersImpl) (op : UserOp)
    (h : smallStore st) : smallStore (applyOp hl st op) := by
  cases op with
  | create u p s =>
    unfold applyOp create_user
    by_cases hd : st.username_to_user.any (fun kv => kv.2.username == u)
    · simpa [hd] using h
    · cases hh : hl.hashPassword p s with
      | error e => simpa [hd, hh] using h
      | ok hpw => simp [hd, hh, smallStore]
  | delete id =>
    exact ⟨le_trans (delete_user_shrinks st id).1 h.1,
           le_trans (delete_user_shrinks st id).2 h.2⟩

/-- Running any operation sequence from a `smallStore` state stays in
`smallStore`. -/
theorem smallStore_runOps (hl : HashLib) (ops : List UserOp) (st : UsersImpl)
    (h : smallStore st) : smallStore (runOps hl st ops) := by
  induction ops generalizing st with
  | nil => exact h
  | cons op ops ih => exact ih _ (smallStore_applyOp hl st op h)

/-- C9: in every state reachable from the empty store, each index holds
at most one entry; and every successful `create_user` returns the store
holding exactly the just-created identity in both indexes, discarding
whatever was stored before. -/
theorem C9_store_holds_at_most_one_user :
    (∀ (hl : HashLib) (ops : List UserOp),
      (runOps hl emptyUsers ops).uuid_to_user.length ≤ 1
      ∧ (runOps hl emptyUsers ops).username_to_user.length ≤ 1)
    ∧ (∀ (hl : HashLib) (st : UsersImpl) (u p s : String) (st' : UsersImpl),
      create_user hl st u p s = Except.ok st' →
      ∃ hpw, hl.hashPassword p s = Except.ok hpw
        ∧ st' = { uuid_to_user :=
                    [(NAMESPACE_X500,
                      { user_uuid := NAMESPACE_X500, username := u, password := hpw })]
                  username_to_user :=
                    [(u, { user_uuid := NAMESPACE_X500, username := u, password := hpw })] }) := by
  constructor
  · intro hl ops
    exact smallStore_runOps hl ops emptyUsers ⟨by simp [emptyUsers], by simp [emptyUsers]⟩
  · intro hl st u p s st' h
    unfold create_user at h
    by_cases hd : st.username_to_user.any (fun kv => kv.2.username == u)
    · simp [hd] at h
    · cases hh : hl.hashPassword p s with
      | error e => simp [hd, hh] at h
      | ok hpw =>
        simp only [hd, hh, if_false, Bool.false_eq_true, if_neg] at h
        refine ⟨hpw, rfl, ?_⟩
        cases h
        rfl

/-- C9 witness: the store reached by one registration has at most one
entry per index, and the successful `create_user` into the empty store
is characterized as holding exactly alice. -/
theorem C9_store_holds_at_most_one_user_witness :
    ((runOps modelHashLib emptyUsers [UserOp.create "alice" "pa" "s1"]).uuid_to_user.length ≤ 1
      ∧ (runOps modelHashLib emptyUsers
          [UserOp.create "alice" "pa" "s1"]).username_to_user.length ≤ 1)
    ∧ ∃ hpw, modelHashLib.hashPassword "pa" "s1" = Except.ok hpw
        ∧ stAlice = { uuid_to_user :=
                        [(NAMESPACE_X500,
                          { user_uuid := NAMESPACE_X500, username := "alice", password := hpw })]
                      username_to_user :=
                        [("alice",
                          { user_uuid := NAMESPACE_X500, username := "alice", password := hpw })] } :=
  ⟨C9_store_holds_at_most_one_user.1 modelHashLib [UserOp.create "alice" "pa" "s1"],
   C9_store_holds_at_most_one_user.2 modelHashLib emptyUsers "alice" "pa" "s1" stAlice rfl⟩

/-- C10: `create_user` validates nothing about the strings themselves:
whenever no stored identity carries the requested username and the
hashing library accepts the password, registration succeeds and stores
the identity under exactly the given username — the empty username and
the empty password included (see the witness). -/
theorem C10_create_user_accepts_any_strings (hl : HashLib) (st : UsersImpl)
    (u p s hpw : String)
    (hdup : st.username_to_user.any (fun kv => kv.2.username == u) = false)
    (hhash : hl.hashPassword p s = Except.ok hpw) :
    create_user hl st u p s
      = Except.ok { uuid_to_user :=
                      [(NAMESPACE_X500,
                        { user_uuid := NAMESPACE_X500, username := u, password := hpw })]
                    username_to_user :=
                      [(u, { user_uuid := NAMESPACE_X500, username := u, password := hpw })] } := by
  unfold create_user
  simp [hdup, hhash]

/-- C10 witness: registering the empty username with the empty password
into the empty store succeeds and stores the identity under the empty
string. -/
theorem C10_create_user_accepts_any_strings_witness :
    (emptyUsers.username_to_user.any (fun kv => kv.2.username == "") = false)
    ∧ modelHashLib.hashPassword "" "s" = Except.ok "s#"
    ∧ create_user modelHashLib emptyUsers "" "" "s"
        = Except.ok { uuid_to_user :=
                        [(NAMESPACE_X500,
                          { user_uuid := NAMESPACE_X500, username := "", password := "s#" })]
                      username_to_user :=
                        [("", { user_uuid := NAMESPACE_X500, username := "", password := "s#" })] } :=
  ⟨rfl, rfl, C10_create_user_accepts_any_strings modelHashLib emptyUsers "" "" "s" "s#" rfl rfl⟩
